import Mathlib

/-!
Verification of the cohort generator and KPI/segmentation engine of
`src/code.py` (a medical-appointment no-show analytics dashboard).

The Python source is embedded shallowly:

* a pandas `DataFrame` of appointment rows becomes `List Row`;
* boolean-mask filters (`df[mask]`) become `List.filter`, which keeps
  the original order, exactly as a pandas mask does;
* Python's true division `/` on the integer counts becomes `pyDiv` over
  `ℚ`, returning `none` where Python raises `ZeroDivisionError`;
* `np.random.*` draws are modelled by a `Draw` of raw natural numbers,
  one per call site, mapped into the call's support:
  `np.random.randint(lo, hi)` (half-open interval) becomes
  `randint lo hi raw = lo + raw % (hi - lo)`, and `np.random.choice`
  over a two-element list becomes `choice2` (the probability weights
  `p=[...]` affect only the distribution, never the support, so they do
  not appear);
* `datetime` values are modelled as integers counting days
  (`timedelta(days=k)` is `+ k`), with `datetime.now()` an arbitrary
  integer parameter `now`;
* Python's `f'P-{10000 + i}'` decimal formatting becomes
  `"P-" ++ natRepr (10000 + i)` with `natRepr` the standard decimal
  rendering built from `Nat.digits 10`.
-/

/-- One row of the generated cohort, mirroring the dict literal built in
`load_data` (src/code.py lines 35-51).  The pandas column `No-show` is
spelled `noShow` (Lean field names cannot contain a hyphen);
`Scholarship`, `Hipertension`, `Diabetes`, `Alcoholism`, `Handcap` and
`SMS_received` are the 0/1 integers the source stores. -/
structure Row where
  patientId : String
  appointmentID : String
  gender : String
  scheduledDay : Int
  appointmentDay : Int
  age : Nat
  neighbourhood : String
  scholarship : Nat
  hipertension : Nat
  diabetes : Nat
  alcoholism : Nat
  handcap : Nat
  SMS_received : Nat
  noShow : String
  leadDays : Nat
deriving DecidableEq

/-- The five fixed neighbourhood names (src/code.py line 19). -/
def neighbourhoods : List String :=
  ["JARDIM DA PENHA", "MATA DA PRAIA", "PONTAL DE CAMBURI", "JARDIM CAMBURI",
   "RESISTÊNCIA"]

/-- The raw randomness consumed by one loop iteration of `load_data`:
one natural number per `np.random.*` call site (src/code.py lines
23-47). -/
structure Draw where
  rawNoShow : Nat
  rawSms : Nat
  rawAge : Nat
  rawSched : Nat
  rawLead : Nat
  rawDiabetes : Nat
  rawHip : Nat
  rawGender : Nat
  rawNbhd : Nat
  rawScholarship : Nat
  rawAlcohol : Nat
  rawHandcap : Nat

/-- `np.random.choice([a, b], ...)`: the raw draw selects one of the two
values.  The probability vector `p` only weights the two outcomes, so it
is irrelevant to every support-level property. -/
def choice2 {α : Type} (a b : α) (raw : Nat) : α :=
  if raw % 2 = 0 then a else b

/-- `np.random.randint(lo, hi)`: a uniform integer from the half-open
interval `[lo, hi)`.  The raw draw is folded into the interval. -/
def randint (lo hi : Nat) (raw : Nat) : Nat :=
  lo + raw % (hi - lo)

/-- Decimal rendering of a natural number, as Python's `str`/f-string
formatting produces: most-significant digit first, `'0'`-based digit
characters. -/
def natRepr (n : Nat) : String :=
  if n = 0 then "0"
  else String.mk (((Nat.digits 10 n).map (fun d => Char.ofNat (48 + d))).reverse)

/-- The body of `load_data`'s loop for index `i` (src/code.py lines
22-52): draws every field and assembles the row.  `now` stands for
`datetime.now()` measured in days. -/
def mkRow (now : Int) (i : Nat) (d : Draw) : Row :=
  let is_no_show := choice2 "Yes" "No" d.rawNoShow
  let has_sms := choice2 0 1 d.rawSms
  let age := randint 5 85 d.rawAge
  let scheduled_date : Int := now - (randint 1 30 d.rawSched : Nat)
  let lead_days := randint 0 15 d.rawLead
  let appointment_date : Int := scheduled_date + (lead_days : Nat)
  let diabetes := choice2 0 1 d.rawDiabetes
  let hipertension := choice2 0 1 d.rawHip
  { patientId := "P-" ++ natRepr (10000 + i)
    appointmentID := "APT-" ++ natRepr (50000 + i)
    gender := choice2 "F" "M" d.rawGender
    scheduledDay := scheduled_date
    appointmentDay := appointment_date
    age := age
    neighbourhood := neighbourhoods.getD (d.rawNbhd % neighbourhoods.length) ""
    scholarship := choice2 0 1 d.rawScholarship
    hipertension := hipertension
    diabetes := diabetes
    alcoholism := choice2 0 1 d.rawAlcohol
    handcap := choice2 0 1 d.rawHandcap
    SMS_received := has_sms
    noShow := is_no_show
    leadDays := lead_days }

/-- `load_data(count)` (src/code.py lines 18-54): `for i in range(count)`
append one row.  Python's `range(count)` is empty for `count ≤ 0`, which
`Int.toNat` captures.  `draws` supplies the raw randomness of iteration
`i`. -/
def load_data (now : Int) (draws : Nat → Draw) (count : Int) : List Row :=
  (List.range count.toNat).map (fun i => mkRow now i (draws i))

/-- Python's true division on the counts: raises `ZeroDivisionError`
(modelled as `none`) when the denominator is zero, otherwise an exact
rational quotient. -/
def pyDiv (a b : ℚ) : Option ℚ :=
  if b = 0 then none else some (a / b)

/-- `no_shows = df[df['No-show'] == 'Yes']` (src/code.py line 94). -/
def no_shows (df : List Row) : List Row :=
  df.filter (fun r => r.noShow == "Yes")

/-- `rate = (len(no_shows) / total_apts) * 100` (src/code.py lines
93-96): the overall no-show rate, undefined on an empty cohort. -/
def rate (df : List Row) : Option ℚ :=
  (pyDiv ((no_shows df).length : ℚ) ((df.length : Nat) : ℚ)).map (fun x => x * 100)

/-- `sms_group = df[df['SMS_received'] == 1]` (src/code.py line 99). -/
def sms_group (df : List Row) : List Row :=
  df.filter (fun r => r.SMS_received == 1)

/-- `no_sms_group = df[df['SMS_received'] == 0]` (src/code.py line 100). -/
def no_sms_group (df : List Row) : List Row :=
  df.filter (fun r => r.SMS_received == 0)

/-- `sms_rate` (src/code.py line 102): no-show rate inside the
SMS-received group. -/
def sms_rate (df : List Row) : Option ℚ :=
  (pyDiv (((sms_group df).filter (fun r => r.noShow == "Yes")).length : ℚ)
    ((sms_group df).length : ℚ)).map (fun x => x * 100)

/-- `no_sms_rate` (src/code.py line 103): no-show rate inside the
no-SMS group. -/
def no_sms_rate (df : List Row) : Option ℚ :=
  (pyDiv (((no_sms_group df).filter (fun r => r.noShow == "Yes")).length : ℚ)
    ((no_sms_group df).length : ℚ)).map (fun x => x * 100)

/-- The spec's `groupRateBy(cohort, predicate)`: the no-show rate of the
subset of `df` satisfying `p`, computed exactly as `sms_rate` and
`no_sms_rate` are (filter, count the `Yes` rows, divide, times 100);
those two (src/code.py lines 99-103) are its instances at
`SMS_received == 1` and `SMS_received == 0`. -/
def group_rate (df : List Row) (p : Row → Bool) : Option ℚ :=
  (pyDiv (((df.filter p).filter (fun r => r.noShow == "Yes")).length : ℚ)
    ((df.filter p).length : ℚ)).map (fun x => x * 100)

/-- `est_loss = len(no_shows) * 150` (src/code.py line 113). -/
def est_loss (df : List Row) : Nat :=
  (no_shows df).length * 150

/-- Modelled from the spec: `revenueLoss(cohort, unitValue) =
count(noShow=Yes) * unitValue`.  The source carries no `unitValue`
parameter — line 113 instantiates it with the constant 150 (`est_loss`,
"Based on $150/visit"); the multiplication by the no-show count is taken
from that line. -/
def revenueLoss (df : List Row) (unitValue : Int) : Int :=
  ((no_shows df).length : Int) * unitValue

/-- `high_risk = df[(df['No-show'] == 'Yes') & (df['LeadDays'] > 5)]`
(src/code.py line 203). -/
def high_risk (df : List Row) : List Row :=
  df.filter (fun r => r.noShow == "Yes" && 5 < r.leadDays)

/-- Regex token for the search model.  Pandas
`Series.str.contains(term, case=False)` defaults to `regex=True`, so
the search term of src/code.py lines 176-179 is a regular expression,
matched case-insensitively (`re.IGNORECASE`).  Only the fragment the
analysis needs is modelled: literal characters and the metacharacter
`.` (match any one character). -/
inductive RTok : Type
  | any : RTok
  | lit : Char → RTok
deriving DecidableEq

/-- Characters that are regex metacharacters in Python's `re` module
besides `.`: a term containing one of these lies outside the modelled
regex fragment. -/
def reSpecials : List Char :=
  ['^', '$', '*', '+', '?', Char.ofNat 123, Char.ofNat 125, '[', ']',
   '\\', '|', '(', ')']

/-- Parse one character of the search term: `.` is the wildcard, the
other metacharacters are out of the model, anything else is a literal. -/
def parseTok (c : Char) : Option RTok :=
  if c = '.' then some RTok.any
  else if c ∈ reSpecials then none
  else some (RTok.lit c)

/-- Parse a list of characters into tokens, `none` if any character is
an unmodelled metacharacter. -/
def parseReList : List Char → Option (List RTok)
  | [] => some []
  | c :: cs =>
      match parseTok c, parseReList cs with
      | some t, some ts => some (t :: ts)
      | _, _ => none

/-- Parse a whole search term into tokens, `none` if any character is an
unmodelled metacharacter. -/
def parseRe (s : String) : Option (List RTok) :=
  parseReList s.data

/-- One token against one character, case-insensitively (pandas
`case=False` sets `re.IGNORECASE`). -/
def tokMatch : RTok → Char → Bool
  | RTok.any, _ => true
  | RTok.lit c, ch => c.toLower == ch.toLower

/-- Do the tokens match a leading segment of `cs`? -/
def matchHere : List RTok → List Char → Bool
  | [], _ => true
  | _ :: _, [] => false
  | t :: ts, c :: cs => tokMatch t c && matchHere ts cs

/-- Do the tokens match anywhere inside `cs`?  This is `re.search`,
which is what `str.contains` performs. -/
def reContains (ts : List RTok) : List Char → Bool
  | [] => matchHere ts []
  | c :: cs => matchHere ts (c :: cs) || reContains ts cs

/-- The search filter of the detailed log (src/code.py lines 172-179):
an empty term is falsy (`if search_term:`), leaving the table
unchanged; otherwise the rows whose `PatientId` or `Neighbourhood`
match the term under pandas `str.contains(search_term, case=False)` —
a case-insensitive regular-expression search — are kept.  `none` when
the term lies outside the modelled regex fragment. -/
def display_df (df : List Row) (search_term : String) : Option (List Row) :=
  if search_term = "" then some df
  else
    (parseRe search_term).map (fun ts =>
      df.filter (fun r =>
        reContains ts r.patientId.data || reContains ts r.neighbourhood.data))

/-- Does `pat` occur as a leading segment of `cs`? -/
def subHere : List Char → List Char → Bool
  | [], _ => true
  | _ :: _, [] => false
  | p :: ps, c :: cs => p == c && subHere ps cs

/-- Does `pat` occur as a contiguous segment anywhere inside `cs`? -/
def hasSub (pat : List Char) : List Char → Bool
  | [] => subHere pat []
  | c :: cs => subHere pat (c :: cs) || hasSub pat cs

/-- Case-insensitive substring containment of `pat` in `s`: both sides
lowercased, then plain containment. -/
def ciHasSub (pat s : String) : Bool :=
  hasSub (pat.data.map Char.toLower) (s.data.map Char.toLower)

/-- The spec's `search(cohort, term)`, written from the spec's words
(case-insensitive substring match against `patientId` or
`neighbourhood`; empty term returns the full cohort unchanged) to be
compared against the code's `display_df`. -/
def searchSpec (df : List Row) (term : String) : List Row :=
  if term = "" then df
  else df.filter (fun r => ciHasSub term r.patientId || ciHasSub term r.neighbourhood)

/-- A concrete row used to instantiate hypotheses at a specific input:
SMS received, a no-show, lead time 6 days. -/
def wRowA : Row :=
  { patientId := "P-10000", appointmentID := "APT-50000", gender := "F"
    scheduledDay := 0, appointmentDay := 6, age := 30
    neighbourhood := "JARDIM DA PENHA", scholarship := 0, hipertension := 0
    diabetes := 0, alcoholism := 0, handcap := 0, SMS_received := 1
    noShow := "Yes", leadDays := 6 }

/-- A second concrete row: SMS received, attended, lead time 2 days. -/
def wRowB : Row :=
  { patientId := "P-10001", appointmentID := "APT-50001", gender := "M"
    scheduledDay := 0, appointmentDay := 2, age := 40
    neighbourhood := "MATA DA PRAIA", scholarship := 0, hipertension := 0
    diabetes := 0, alcoholism := 0, handcap := 0, SMS_received := 1
    noShow := "No", leadDays := 2 }

/-- A fixed draw, used to instantiate the generator at a concrete
input. -/
def wDraw : Draw :=
  { rawNoShow := 0, rawSms := 1, rawAge := 7, rawSched := 3, rawLead := 4
    rawDiabetes := 0, rawHip := 0, rawGender := 0, rawNbhd := 2
    rawScholarship := 0, rawAlcohol := 0, rawHandcap := 0 }

theorem rate_congr {l₁ l₂ : List Row} (hlen : l₁.length = l₂.length)
    (hns : (no_shows l₁).length = (no_shows l₂).length) : rate l₁ = rate l₂ := by
  simp [rate, hlen, hns]

/-- Claim C1: on an empty cohort the overall rate computation divides by
zero (Python raises `ZeroDivisionError`, the spec's `DivisionUndefined`;
here `none`), and for any predicate whose satisfying subset of the
cohort is empty — in particular `SMS_received == 0` on a cohort in which
every record has the SMS flag set — the group rate likewise fails with
the division error instead of yielding a number. -/
theorem C1_division_undefined_on_empty :
    rate ([] : List Row) = none ∧
    (∀ (df : List Row) (p : Row → Bool), (∀ r ∈ df, p r = false) →
      group_rate df p = none) ∧
    (∀ df : List Row, (∀ r ∈ df, r.SMS_received ≠ 0) → no_sms_rate df = none) := by
  refine ⟨by simp [rate, no_shows, pyDiv], ?_, ?_⟩
  · intro df p h
    have hfil : df.filter p = [] := by
      simp only [List.filter_eq_nil_iff]
      intro r hr
      simp [h r hr]
    simp [group_rate, hfil, pyDiv]
  · intro df h
    have hfil : no_sms_group df = [] := by
      simp only [no_sms_group, List.filter_eq_nil_iff]
      intro r hr
      simpa using h r hr
    simp [no_sms_rate, hfil, pyDiv]

/-- Witness for C1 at a concrete cohort: both records of
`[wRowA, wRowB]` have `SMS_received = 1`, so `no_sms_rate` is the
division error. -/
theorem C1_division_undefined_on_empty_witness :
    no_sms_rate [wRowA, wRowB] = none :=
  C1_division_undefined_on_empty.2.2 [wRowA, wRowB] (by decide)

/-- Claim C5: `high_risk` consists exactly of the records of `df` with
`noShow = "Yes"` and `leadDays > 5`; it is a sublist of `df` (hence a
subset, in the original order — a stable filter, not resorted), and no
record outside `df` appears. -/
theorem C5_high_risk_filter (df : List Row) :
    (high_risk df).Sublist df ∧
    (∀ r : Row, r ∈ high_risk df ↔ (r ∈ df ∧ r.noShow = "Yes" ∧ 5 < r.leadDays)) := by
  refine ⟨List.filter_sublist df, fun r => ?_⟩
  simp [high_risk, List.mem_filter, and_assoc]

/-- Claim C7: the revenue-loss estimate is the number of no-show records
times the per-visit value; the source's `est_loss` is its instance at
150, and a cohort with exactly 4 no-shows at `unitValue = 150` yields
600. -/
theorem C7_revenue_loss (df : List Row) (u : Int) (_hu : 0 ≤ u) :
    revenueLoss df u = (df.countP (fun r => r.noShow == "Yes") : Int) * u ∧
    (est_loss df : Int) = revenueLoss df 150 ∧
    (df.countP (fun r => r.noShow == "Yes") = 4 → revenueLoss df 150 = 600) := by
  have hc : df.countP (fun r => r.noShow == "Yes") = (no_shows df).length := by
    simp [no_shows, List.countP_eq_length_filter]
  refine ⟨by simp [revenueLoss, hc], by simp [est_loss, revenueLoss], ?_⟩
  intro h4
  simp [revenueLoss, ← hc, h4]

/-- Witness for C7: a concrete 5-record cohort with exactly 4 no-shows
loses 4 × 150 = 600. -/
theorem C7_revenue_loss_witness :
    revenueLoss [wRowA, wRowA, wRowA, wRowA, wRowB] 150 = 600 :=
  (C7_revenue_loss [wRowA, wRowA, wRowA, wRowA, wRowB] 150 (by decide)).2.2 (by decide)

/-- Claim C9: the overall no-show rate of a non-empty cohort is
invariant under any permutation of its records. -/
theorem C9_rate_perm_invariant (l₁ l₂ : List Row) (_hne : l₁ ≠ [])
    (h : l₁.Perm l₂) : rate l₁ = rate l₂ := by
  apply rate_congr h.length_eq
  simpa [no_shows] using (h.filter (fun r => r.noShow == "Yes")).length_eq

/-- Witness for C9 at a concrete two-record cohort and its swap. -/
theorem C9_rate_perm_invariant_witness :
    rate [wRowA, wRowB] = rate [wRowB, wRowA] :=
  C9_rate_perm_invariant [wRowA, wRowB] [wRowB, wRowA] (by decide)
    (List.Perm.swap wRowB wRowA [])

/-- Claim C2: for every positive `count` the generator produces exactly
`count` records. -/
theorem C2_generate_count (now : Int) (draws : Nat → Draw) (count : Int)
    (h : 0 < count) : ((load_data now draws count).length : Int) = count := by
  simp [load_data, Int.toNat_of_nonneg h.le]

/-- Witness for C2 at `count = 3`. -/
theorem C2_generate_count_witness :
    ((load_data 0 (fun _ => wDraw) 3).length : Int) = 3 :=
  C2_generate_count 0 (fun _ => wDraw) 3 (by decide)

/-- Claim C3: every generated record satisfies
`appointmentDay = scheduledDay + leadDays` and `leadDays ∈ [0, 14]`
(`leadDays` is a natural number, so the lower bound is automatic). -/
theorem C3_generated_row_invariants (now : Int) (draws : Nat → Draw)
    (count : Int) (r : Row) (h : r ∈ load_data now draws count) :
    r.appointmentDay = r.scheduledDay + (r.leadDays : Int) ∧ r.leadDays ≤ 14 := by
  simp only [load_data, List.mem_map] at h
  obtain ⟨i, -, rfl⟩ := h
  refine ⟨rfl, ?_⟩
  have hl : (mkRow now i (draws i)).leadDays = randint 0 15 (draws i).rawLead := rfl
  rw [hl]
  simp only [randint]
  omega

/-- Witness for C3 at the concrete one-record cohort generated from
`wDraw`. -/
theorem C3_generated_row_invariants_witness :
    (mkRow 0 0 wDraw).appointmentDay =
      (mkRow 0 0 wDraw).scheduledDay + ((mkRow 0 0 wDraw).leadDays : Int) ∧
    (mkRow 0 0 wDraw).leadDays ≤ 14 :=
  C3_generated_row_invariants 0 (fun _ => wDraw) 1 (mkRow 0 0 wDraw)
    (by simp [load_data])

/-- Counterexample to claim C8: `load_data` does not reject a
non-positive `count` — `for i in range(count)` simply runs zero times —
so at `count = 0` and at `count = -3` it returns an empty cohort
instead of raising `InvalidArgument`. -/
theorem C8_counterexample :
    load_data 0 (fun _ => wDraw) 0 = ([] : List Row) ∧
    load_data 0 (fun _ => wDraw) (-3) = ([] : List Row) :=
  ⟨rfl, rfl⟩

/-- Claim C8 as amended: for every `count ≤ 0` the generator returns the
empty cohort (zero records); no error of any kind is raised. -/
theorem C8_amended_nonpositive_count (now : Int) (draws : Nat → Draw)
    (count : Int) (h : count ≤ 0) : load_data now draws count = [] := by
  simp [load_data, Int.toNat_of_nonpos h]

/-- Witness for the amended C8 at `count = -1`. -/
theorem C8_amended_nonpositive_count_witness :
    load_data 5 (fun _ => wDraw) (-1) = [] :=
  C8_amended_nonpositive_count 5 (fun _ => wDraw) (-1) (by decide)

/-- Claim C10: every generated record has `age` in `[5, 84]`; the value
85 is never produced, because `np.random.randint(5, 85)` draws from the
half-open interval `[5, 85)`. -/
theorem C10_age_range (now : Int) (draws : Nat → Draw) (count : Int)
    (r : Row) (h : r ∈ load_data now draws count) :
    5 ≤ r.age ∧ r.age ≤ 84 ∧ r.age ≠ 85 := by
  simp only [load_data, List.mem_map] at h
  obtain ⟨i, -, rfl⟩ := h
  have ha : (mkRow now i (draws i)).age = randint 5 85 (draws i).rawAge := rfl
  rw [ha]
  simp only [randint]
  omega

/-- Witness for C10 at the concrete one-record cohort generated from
`wDraw`. -/
theorem C10_age_range_witness :
    5 ≤ (mkRow 0 0 wDraw).age ∧ (mkRow 0 0 wDraw).age ≤ 84 ∧
    (mkRow 0 0 wDraw).age ≠ 85 :=
  C10_age_range 0 (fun _ => wDraw) 1 (mkRow 0 0 wDraw) (by simp [load_data])

theorem dChar_fin_inj : ∀ a b : Fin 10,
    Char.ofNat (48 + a.val) = Char.ofNat (48 + b.val) → a = b := by decide

theorem map_dChar_inj : ∀ as bs : List Nat, (∀ a ∈ as, a < 10) →
    (∀ b ∈ bs, b < 10) →
    as.map (fun d => Char.ofNat (48 + d)) = bs.map (fun d => Char.ofNat (48 + d)) →
    as = bs := by
  intro as
  induction as with
  | nil =>
    intro bs _ _ h
    cases bs with
    | nil => rfl
    | cons b bs => simp at h
  | cons a as ih =>
    intro bs ha hb h
    cases bs with
    | nil => simp at h
    | cons b bs =>
      simp only [List.map_cons, List.cons.injEq] at h
      have ha10 : a < 10 := ha a (List.mem_cons_self a as)
      have hb10 : b < 10 := hb b (List.mem_cons_self b bs)
      have hab : (⟨a, ha10⟩ : Fin 10) = ⟨b, hb10⟩ := dChar_fin_inj _ _ h.1
      have htl := ih bs (fun x hx => ha x (List.mem_cons_of_mem _ hx))
        (fun x hx => hb x (List.mem_cons_of_mem _ hx)) h.2
      have hhd : a = b := congrArg Fin.val hab
      rw [hhd, htl]

theorem natRepr_inj {m n : Nat} (hm : m ≠ 0) (hn : n ≠ 0)
    (h : natRepr m = natRepr n) : m = n := by
  rw [natRepr, if_neg hm, natRepr, if_neg hn] at h
  have hdata : ((Nat.digits 10 m).map (fun d => Char.ofNat (48 + d))).reverse =
      ((Nat.digits 10 n).map (fun d => Char.ofNat (48 + d))).reverse :=
    congrArg String.data h
  have hmap := List.reverse_injective hdata
  have hdig := map_dChar_inj _ _
    (fun d hd => Nat.digits_lt_base (by norm_num) hd)
    (fun d hd => Nat.digits_lt_base (by norm_num) hd) hmap
  exact Nat.digits.injective 10 hdig

theorem string_append_cancel {p s t : String} (h : p ++ s = p ++ t) : s = t := by
  obtain ⟨pd⟩ := p
  obtain ⟨sd⟩ := s
  obtain ⟨td⟩ := t
  have hd : pd ++ sd = pd ++ td := congrArg String.data h
  exact congrArg String.mk (List.append_cancel_left hd)

theorem id_of_index_inj (pre : String) (base : Nat) (hbase : 0 < base) :
    Function.Injective (fun i : Nat => pre ++ natRepr (base + i)) := by
  intro i j h
  have h1 := string_append_cancel h
  have h2 := natRepr_inj (by omega) (by omega) h1
  omega

/-- Claim C4: within one generated cohort the record at index `i`
carries `patientId = "P-" ++ (10000 + i)` and
`appointmentID = "APT-" ++ (50000 + i)` (sequential suffixes), and both
identifier columns are pairwise distinct. -/
theorem C4_sequential_unique_ids (now : Int) (draws : Nat → Draw) (count : Int)
    (i : Nat) (h : i < (load_data now draws count).length) :
    ((load_data now draws count).get ⟨i, h⟩).patientId =
      "P-" ++ natRepr (10000 + i) ∧
    ((load_data now draws count).get ⟨i, h⟩).appointmentID =
      "APT-" ++ natRepr (50000 + i) ∧
    ((load_data now draws count).map (fun r => r.patientId)).Nodup ∧
    ((load_data now draws count).map (fun r => r.appointmentID)).Nodup := by
  have hget : (load_data now draws count).get ⟨i, h⟩ = mkRow now i (draws i) := by
    simp [load_data, List.get_eq_getElem, List.getElem_map, List.getElem_range]
  have hmapP : (load_data now draws count).map (fun r => r.patientId) =
      (List.range count.toNat).map (fun j => "P-" ++ natRepr (10000 + j)) := by
    simp only [load_data, List.map_map]
    rfl
  have hmapA : (load_data now draws count).map (fun r => r.appointmentID) =
      (List.range count.toNat).map (fun j => "APT-" ++ natRepr (50000 + j)) := by
    simp only [load_data, List.map_map]
    rfl
  refine ⟨by rw [hget]; exact rfl, by rw [hget]; exact rfl, ?_, ?_⟩
  · rw [hmapP]
    exact (List.nodup_range count.toNat).map
      (id_of_index_inj "P-" 10000 (by norm_num))
  · rw [hmapA]
    exact (List.nodup_range count.toNat).map
      (id_of_index_inj "APT-" 50000 (by norm_num))

/-- Witness for C4: the identifier columns of a concrete two-record
cohort are pairwise distinct. -/
theorem C4_sequential_unique_ids_witness :
    ((load_data 0 (fun _ => wDraw) 2).map (fun r => r.patientId)).Nodup ∧
    ((load_data 0 (fun _ => wDraw) 2).map (fun r => r.appointmentID)).Nodup :=
  ⟨(C4_sequential_unique_ids 0 (fun _ => wDraw) 2 0 (by simp [load_data])).2.2.1,
   (C4_sequential_unique_ids 0 (fun _ => wDraw) 2 0 (by simp [load_data])).2.2.2⟩

theorem parseReList_lit : ∀ cs : List Char,
    (∀ c ∈ cs, parseTok c = some (RTok.lit c)) →
    parseReList cs = some (cs.map RTok.lit) := by
  intro cs
  induction cs with
  | nil => intro _; rfl
  | cons c cs ih =>
    intro h
    have hc := h c (List.mem_cons_self c cs)
    have ht := ih (fun x hx => h x (List.mem_cons_of_mem _ hx))
    simp [parseReList, hc, ht]

theorem matchHere_lit (pat : List Char) : ∀ s : List Char,
    matchHere (pat.map RTok.lit) s =
      subHere (pat.map Char.toLower) (s.map Char.toLower) := by
  induction pat with
  | nil => intro s; cases s <;> rfl
  | cons p ps ih =>
    intro s
    cases s with
    | nil => rfl
    | cons c cs =>
      simp [matchHere, subHere, tokMatch, ih]

theorem reContains_lit (pat : List Char) : ∀ s : List Char,
    reContains (pat.map RTok.lit) s =
      hasSub (pat.map Char.toLower) (s.map Char.toLower) := by
  intro s
  induction s with
  | nil => simpa using matchHere_lit pat []
  | cons c cs ih =>
    simp only [reContains, hasSub, List.map_cons, ih]
    rw [← List.map_cons Char.toLower c cs, ← matchHere_lit]

/-- Counterexample to claim C6: on the one-record cohort `[wRowA]` with
search term `"."`, the code keeps the record — pandas `str.contains`
interprets the term as a regular expression (`regex=True` is the
default), and the regex `.` matches any character — although neither
`patientId = "P-10000"` nor `neighbourhood = "JARDIM DA PENHA"`
contains the character `.`; the spec-side case-insensitive substring
search therefore returns no record at all. -/
theorem C6_counterexample :
    display_df [wRowA] "." = some [wRowA] ∧ searchSpec [wRowA] "." = [] := by
  constructor
  · rfl
  · rfl

/-- Claim C6 as amended: the empty search term returns the full cohort
unchanged, and for every search term containing no regex metacharacter
(each of its characters parses as a literal token) the code's filter
returns exactly the records whose `patientId` or `neighbourhood`
contains the term as a case-insensitive substring — i.e. it agrees
with the spec's substring search.  (Unrestricted, the claim fails: the
term is interpreted as a regular expression; see the
counterexample.) -/
theorem C6_amended_search (df : List Row) (term : String)
    (hlit : ∀ c ∈ term.data, parseTok c = some (RTok.lit c)) :
    display_df df "" = some df ∧
    display_df df term = some (searchSpec df term) := by
  refine ⟨by simp [display_df], ?_⟩
  by_cases hterm : term = ""
  · subst hterm
    simp [display_df, searchSpec]
  · have hparse : parseRe term = some (term.data.map RTok.lit) :=
      parseReList_lit term.data hlit
    have hfun : ∀ r : Row,
        (reContains (term.data.map RTok.lit) r.patientId.data ||
          reContains (term.data.map RTok.lit) r.neighbourhood.data) =
        (ciHasSub term r.patientId || ciHasSub term r.neighbourhood) := by
      intro r
      rw [reContains_lit, reContains_lit]
      rfl
    simp only [display_df, searchSpec, if_neg hterm, hparse]
    exact congrArg some (List.filter_congr (fun r _ => hfun r))

/-- Witness for the amended C6: searching `"penha"` (lower-case, no
metacharacters) over a concrete two-record cohort agrees with the
spec-side substring search. -/
theorem C6_amended_search_witness :
    display_df [wRowA, wRowB] "penha" = some (searchSpec [wRowA, wRowB] "penha") :=
  (C6_amended_search [wRowA, wRowB] "penha" (by decide)).2
